import Mathlib

/-!
Shallow embedding of the fitness-ai repository (src/train.py, src/predict.py)
in Lean 4, with proofs of the specified properties.

Meal rows are modelled with optional rational-valued cells (a missing CSV
cell / NaN is `none`); the user profile JSON is modelled structurally, with
`Option` where the Python code uses `.get` with a default.
-/

namespace FitnessAI

/-- A row of the meal CSV (`data.csv`) as read by `train.py`.  Only the
columns the model uses are kept; every cell may be missing. -/
structure RawRow where
  meal_type : Option String
  items : Option String
  protein_g : Option ℚ
  carbs_g : Option ℚ
  fat_g : Option ℚ
  calories_kcal : Option ℚ
deriving Repr, DecidableEq

/-- Preference lists of the user profile (`profile.json`,
`profile["preferences"]`). -/
structure Preferences where
  favorite_foods : List String
  favorite_snacks : List String
  grocery_items : List String
deriving Repr, DecidableEq

/-- Field `profile["dietary_patterns"]["macro_preferences"]`: each ratio is read
with `.get(..., 0.0)`, hence optional. -/
structure MacroPrefs where
  protein_ratio : Option ℚ
  carbs_ratio : Option ℚ
  fat_ratio : Option ℚ
deriving Repr, DecidableEq

/-- Field `profile["learning_metrics"]`: every key is read with `.get`, hence
optional. -/
structure LearningMetrics where
  total_predictions : Option ℕ
  model_confidence : Option ℚ
  personalization_score : Option ℚ
  accuracy_trend : Option (List ℚ)
deriving Repr, DecidableEq

/-- The user profile.  `preferences = none` covers both an absent and a
falsy (empty) `preferences` dict, matching the
`profile and profile.get("preferences")` guards; `macroPreferences` is the
collapsed `profile.get("dietary_patterns", {}).get("macro_preferences", {})`
chain. -/
structure Profile where
  preferences : Option Preferences
  macroPreferences : Option MacroPrefs
  learning_metrics : LearningMetrics
deriving Repr, DecidableEq

/-- Outcome of trying to read a JSON file from disk, as distinguished by
`load_profile` / the metadata `try` block in `predict.py`. -/
inductive FileRead (α : Type) where
  | missing : FileRead α
  | unreadable : FileRead α
  | invalidJSON : FileRead α
  | ok : α → FileRead α
deriving Repr, DecidableEq

/-- Function `load_profile` (identical in `train.py` and `predict.py`): returns the
parsed profile, or `None` when the file is missing, unreadable, or not
valid JSON (the bare `except` catches every error). -/
def load_profile : FileRead Profile → Option Profile
  | .ok p => some p
  | _ => none

/-- Calorie synthesis in `load_frame` (`train.py` lines 85-94): a row with
missing `calories_kcal` and all three macros present gets
`4*protein + 4*carbs + 9*fat` as its label and is flagged synthetic; every
other row is unchanged and flagged non-synthetic. -/
def synthesizeRow (r : RawRow) : RawRow × Bool :=
  match r.calories_kcal, r.protein_g, r.carbs_g, r.fat_g with
  | none, some p, some c, some f =>
      ({ r with calories_kcal := some (4 * p + 4 * c + 9 * f) }, true)
  | _, _, _, _ => (r, false)

/-- The `dropna(subset=["protein_g","carbs_g","fat_g","calories_kcal"])`
predicate of `load_frame` line 97: all four columns present. -/
def usable (r : RawRow) : Bool :=
  r.protein_g.isSome && r.carbs_g.isSome && r.fat_g.isSome &&
    r.calories_kcal.isSome

/-- The row pipeline of `load_frame`: keep rows with a `meal_type`,
synthesize calorie labels, then drop rows missing any of the four numeric
columns.  Each surviving row is paired with its `label_is_synthetic`
flag. -/
def loadFrameRows (rows : List RawRow) : List (RawRow × Bool) :=
  (((rows.filter fun r => r.meal_type.isSome).map synthesizeRow).filter
    fun rb => usable rb.1)

/-- Python's `needle.lower() in hay.lower()` substring test used for the
preference-match features. -/
def strContains (hay needle : String) : Bool :=
  decide (needle.toLower.toList <:+: hay.toLower.toList)

/-- Test `any(s.lower() in items.lower() for s in prefList)` of `predict.py`. -/
def hasMatch (prefList : List String) (items : String) : Bool :=
  prefList.any fun s => strContains items s

/-- The train-side variant (`load_frame` lines 106-114): a missing `items`
cell yields `False`. -/
def hasMatchOpt (prefList : List String) (items : Option String) : Bool :=
  match items with
  | some x => hasMatch prefList x
  | none => false

/-- Value `1 if b else 0` as a rational feature value. -/
def boolToQ (b : Bool) : ℚ := if b then 1 else 0

/-- List `feature_cols` of `load_frame` (`train.py` lines 136-137); also written
to metadata as `"schema"` (`train.py` line 202). -/
def featureCols : List String :=
  ["protein_g", "carbs_g", "fat_g", "has_favorite_food",
   "has_favorite_snack", "has_grocery_item", "profile_protein_ratio",
   "profile_carbs_ratio", "profile_fat_ratio", "personalization_score"]

/-- The per-row feature vector `meals[feature_cols]` built by `load_frame`
(lines 99-138): the three macro cells followed by the seven profile-derived
features, which are all zero when there is no profile or the profile has no
(truthy) `preferences`. -/
def trainFeatures (profile : Option Profile) (r : RawRow) : List ℚ :=
  let base := [r.protein_g.getD 0, r.carbs_g.getD 0, r.fat_g.getD 0]
  match profile with
  | some prof =>
    match prof.preferences with
    | some prefs =>
      let mp := prof.macroPreferences
      base ++
        [boolToQ (hasMatchOpt prefs.favorite_foods r.items),
         boolToQ (hasMatchOpt prefs.favorite_snacks r.items),
         boolToQ (hasMatchOpt prefs.grocery_items r.items),
         (mp.bind MacroPrefs.protein_ratio).getD 0,
         (mp.bind MacroPrefs.carbs_ratio).getD 0,
         (mp.bind MacroPrefs.fat_ratio).getD 0,
         prof.learning_metrics.personalization_score.getD 0]
    | none => base ++ [0, 0, 0, 0, 0, 0, 0]
  | none => base ++ [0, 0, 0, 0, 0, 0, 0]

/-- The `while len(features) < len(feature_cols): features.append(0.0)`
padding loop of `predict.py` lines 66-68. -/
def padZeros (features : List ℚ) (n : ℕ) : List ℚ :=
  features ++ List.replicate (n - features.length) 0

/-- Feature-vector assembly of `predict_with_profile` (`predict.py` lines
41-68): start from `[protein, carbs, fat]`, extend with the seven profile
features only when a profile with truthy `preferences` exists and the
schema has more than 3 columns, then pad with zeros up to the schema
length. -/
def predictFeatures (schema : List String) (profile : Option Profile)
    (protein_g carbs_g fat_g : ℚ) (items : String) : List ℚ :=
  let base := [protein_g, carbs_g, fat_g]
  let features :=
    match profile with
    | some prof =>
      match prof.preferences with
      | some prefs =>
        if 3 < schema.length then
          let mp := prof.macroPreferences
          base ++
            [boolToQ (hasMatch prefs.favorite_foods items),
             boolToQ (hasMatch prefs.favorite_snacks items),
             boolToQ (hasMatch prefs.grocery_items items),
             (mp.bind MacroPrefs.protein_ratio).getD 0,
             (mp.bind MacroPrefs.carbs_ratio).getD 0,
             (mp.bind MacroPrefs.fat_ratio).getD 0,
             prof.learning_metrics.personalization_score.getD 0]
        else base
      | none => base
    | none => base
  padZeros features schema.length

/-- The metadata record, as far as prediction consumes it:
`metadata.get("schema", ...)` means the `schema` key is optional. -/
structure Metadata where
  schema : Option (List String)
deriving Repr, DecidableEq

/-- Default schema used by `predict_with_profile` when metadata is absent,
unparsable, or lacks a `schema` key (`predict.py` lines 34-36). -/
def defaultSchema : List String := ["protein_g", "carbs_g", "fat_g"]

/-- Schema resolution of `predict_with_profile` lines 30-36: the recorded
schema when the metadata file parses, the three-macro default otherwise. -/
def getSchema : FileRead Metadata → List String
  | .ok m => m.schema.getD defaultSchema
  | _ => defaultSchema

/-- Function `predict_with_profile` (`predict.py` lines 26-72) after the model is
loaded: resolve the schema, load the profile, assemble the feature vector
and apply the regressor (modelled as an arbitrary function on feature
vectors). -/
def predict_with_profile (mr : FileRead Metadata) (pr : FileRead Profile)
    (model : List ℚ → ℚ) (protein_g carbs_g fat_g : ℚ) (items : String) : ℚ :=
  let feature_cols := getSchema mr
  let profile := load_profile pr
  model (predictFeatures feature_cols profile protein_g carbs_g fat_g items)

/-- The validation strategy chosen by `main` in `train.py`:
holdout with its `test_size`, k-fold with its split count, leave-one-out,
or the linear baseline with no validation. -/
inductive Strategy where
  | holdout : ℚ → Strategy
  | kfold : ℕ → Strategy
  | loo : Strategy
  | baseline : Strategy
deriving Repr, DecidableEq

/-- Strategy selection of `train.py` lines 152-183:
`n >= 10` → `train_test_split(test_size=0.25)`; `n >= 3` → `KFold(3)` when
`n >= 6`, else `LeaveOneOut`; otherwise the `LinearRegression` baseline. -/
def chooseStrategy (n : ℕ) : Strategy :=
  if 10 ≤ n then .holdout (1 / 4)
  else if 3 ≤ n then
    let k := if 6 ≤ n then 3 else n
    if 6 ≤ n then .kfold k else .loo
  else .baseline

/-- Function `ensure_model` of `predict.py` lines 9-14: exit with a message when the
model file is missing or smaller than 1024 bytes, succeed otherwise.  The
file-system state is abstracted to existence plus size in bytes. -/
def ensure_model (modelExists : Bool) (modelSize : ℕ) : Except String Unit :=
  if !modelExists then .error "Model not found. Train first: python train.py"
  else if modelSize < 1024 then .error "Model file looks too small"
  else .ok ()

/-- The training entry point `main` (`train.py` lines 142-183) up to
strategy choice: load the frame, exit with a message when no usable rows
remain, otherwise pick the validation strategy.  No model is fitted in the
error case. -/
def trainMain (rows : List RawRow) : Except String Strategy :=
  let n := (loadFrameRows rows).length
  if n = 0 then
    .error "No usable rows. You need macros (protein_g, carbs_g, fat_g) and/or calories_kcal."
  else .ok (chooseStrategy n)

/-- The prediction entry point (`predict.py` lines 79-81): `ensure_model`
first; the model is loaded and applied only when it succeeds. -/
def predictMain (modelExists : Bool) (modelSize : ℕ) (mr : FileRead Metadata)
    (pr : FileRead Profile) (model : List ℚ → ℚ)
    (protein_g carbs_g fat_g : ℚ) (items : String) : Except String ℚ :=
  match ensure_model modelExists modelSize with
  | .error e => .error e
  | .ok _ =>
      .ok (predict_with_profile mr pr model protein_g carbs_g fat_g items)

/-- Value `total_preferences` of `update_profile_metrics` (`train.py` lines
36-38): the summed lengths of the three preference lists. -/
def totalPreferences (prefs : Preferences) : ℕ :=
  prefs.favorite_foods.length + prefs.favorite_snacks.length +
    prefs.grocery_items.length

/-- Score `min(1.0, total_preferences * 0.1 + n_samples * 0.01)` (`train.py`
line 41). -/
def personalizationScore (totalPrefs n : ℕ) : ℚ :=
  min 1 ((totalPrefs : ℚ) * (1 / 10) + (n : ℚ) * (1 / 100))

/-- Total preference count of a profile: the `.get(..., [])` defaults mean
an absent `preferences` dict contributes empty lists. -/
def profileTotalPrefs (p : Profile) : ℕ :=
  match p.preferences with
  | some prefs => totalPreferences prefs
  | none => 0

/-- The accuracy-trend update of `update_profile_metrics` (`train.py` lines
50-53): append the new score, then keep only the last 10 entries when the
list exceeds 10. -/
def updateAccuracyTrend (trend : List ℚ) (r2 : ℚ) : List ℚ :=
  let t := trend ++ [r2]
  if 10 < t.length then t.drop (t.length - 10) else t

/-- Function `update_profile_metrics` (`train.py` lines 28-73), modulo file I/O:
returns the updated profile, or `none` when no profile loads (the function
returns early).  `r2` is `metrics["r2"]` when present. -/
def update_profile_metrics (po : Option Profile) (r2 : Option ℚ) (n : ℕ)
    (modelConfidence : ℚ) : Option Profile :=
  match po with
  | none => none
  | some profile =>
    let score := personalizationScore (profileTotalPrefs profile) n
    let lm0 := profile.learning_metrics
    let lm1 : LearningMetrics :=
      { lm0 with
        total_predictions := some n
        model_confidence := some modelConfidence
        personalization_score := some score }
    let lm2 : LearningMetrics :=
      match r2 with
      | some v =>
        { lm1 with
          accuracy_trend :=
            some (updateAccuracyTrend (lm1.accuracy_trend.getD []) v) }
      | none => lm1
    let mp :=
      if 0 < n then
        some (MacroPrefs.mk (some (1 / 4)) (some (9 / 20)) (some (3 / 10)))
      else profile.macroPreferences
    some { profile with learning_metrics := lm2, macroPreferences := mp }

/-! Concrete sample rows used by the witness theorems. -/

/-- A complete meal row (all macros and a real calorie label). -/
def sampleGoodRow : RawRow :=
  ⟨some "dinner", some "chicken rice", some 30, some 40, some 10, some 500⟩

/-- A meal row missing its protein cell but carrying a calorie label. -/
def sampleBadRow : RawRow :=
  ⟨some "dinner", some "toast", none, some 20, some 5, some 250⟩

/-! Helper lemmas about the row pipeline. -/

lemma synthesizeRow_protein (r : RawRow) :
    (synthesizeRow r).1.protein_g = r.protein_g := by
  rcases r with ⟨mt, it, pg, cg, fg, ck⟩
  cases ck <;> cases pg <;> cases cg <;> cases fg <;> rfl

lemma synthesizeRow_carbs (r : RawRow) :
    (synthesizeRow r).1.carbs_g = r.carbs_g := by
  rcases r with ⟨mt, it, pg, cg, fg, ck⟩
  cases ck <;> cases pg <;> cases cg <;> cases fg <;> rfl

lemma synthesizeRow_fat (r : RawRow) :
    (synthesizeRow r).1.fat_g = r.fat_g := by
  rcases r with ⟨mt, it, pg, cg, fg, ck⟩
  cases ck <;> cases pg <;> cases cg <;> cases fg <;> rfl

/-- Claim C1: a meal row with all three macros present and `calories_kcal`
missing gets the synthesized label `4*protein + 4*carbs + 9*fat` exactly,
and a row that already has `calories_kcal` keeps its original value. -/
theorem C1_label_synthesis (r : RawRow) (p c f : ℚ) :
    (r.protein_g = some p → r.carbs_g = some c → r.fat_g = some f →
      r.calories_kcal = none →
      (synthesizeRow r).1.calories_kcal = some (4 * p + 4 * c + 9 * f)) ∧
    (∀ v : ℚ, r.calories_kcal = some v →
      (synthesizeRow r).1.calories_kcal = some v) := by
  constructor
  · intro hp hc hf hcal
    rcases r with ⟨mt, it, pg, cg, fg, ck⟩
    simp only at hp hc hf hcal
    subst hp; subst hc; subst hf; subst hcal
    rfl
  · intro v hv
    rcases r with ⟨mt, it, pg, cg, fg, ck⟩
    simp only at hv
    subst hv
    rfl

/-- Witness for C1 at concrete rows: synthesis yields `370 = 4*30+4*40+9*10`
for a row missing calories, and a row with calories `500` is unchanged. -/
theorem C1_label_synthesis_witness :
    (synthesizeRow ⟨some "dinner", some "rice", some 30, some 40, some 10,
      none⟩).1.calories_kcal = some 370 ∧
    (synthesizeRow sampleGoodRow).1.calories_kcal = some 500 := by
  constructor
  · have h := (C1_label_synthesis
      ⟨some "dinner", some "rice", some 30, some 40, some 10, none⟩
      30 40 10).1 rfl rfl rfl rfl
    rw [h]; norm_num
  · exact (C1_label_synthesis sampleGoodRow 30 40 10).2 500 rfl

/-- Claim C2: validation-strategy selection by usable sample count:
`n ≥ 10` gives the 75/25 holdout split, `6 ≤ n < 10` gives 3-fold CV,
`3 ≤ n < 6` gives leave-one-out, `n < 3` gives the linear baseline; in
particular `n = 5` selects leave-one-out and `n = 12` selects holdout. -/
theorem C2_strategy_selection (n : ℕ) (hn : 1 ≤ n) :
    (10 ≤ n → chooseStrategy n = .holdout (1 / 4)) ∧
    (6 ≤ n → n < 10 → chooseStrategy n = .kfold 3) ∧
    (3 ≤ n → n < 6 → chooseStrategy n = .loo) ∧
    (n < 3 → chooseStrategy n = .baseline) ∧
    chooseStrategy 5 = .loo ∧ chooseStrategy 12 = .holdout (1 / 4) := by
  refine ⟨?_, ?_, ?_, ?_, by norm_num [chooseStrategy], by norm_num [chooseStrategy]⟩
  · intro h
    simp [chooseStrategy, h]
  · intro h6 h10
    have h10' : ¬ 10 ≤ n := by omega
    have h3 : 3 ≤ n := by omega
    simp [chooseStrategy, h10', h3, h6]
  · intro h3 h6
    have h10' : ¬ 10 ≤ n := by omega
    have h6' : ¬ 6 ≤ n := by omega
    simp [chooseStrategy, h10', h3, h6']
  · intro h3
    have h10' : ¬ 10 ≤ n := by omega
    have h3' : ¬ 3 ≤ n := by omega
    simp [chooseStrategy, h10', h3']

/-- Witness for C2: at `n = 12` holdout is chosen, at `n = 5`
leave-one-out. -/
theorem C2_strategy_selection_witness :
    chooseStrategy 12 = .holdout (1 / 4) ∧ chooseStrategy 5 = .loo :=
  ⟨(C2_strategy_selection 12 (by norm_num)).1 (by norm_num),
   (C2_strategy_selection 5 (by norm_num)).2.2.1 (by norm_num) (by norm_num)⟩

/-- Claim C3: every row surviving `load_frame` has all of `protein_g`,
`carbs_g`, `fat_g`, `calories_kcal` present, and a row missing any macro is
excluded from the training set no matter whether it has calories. -/
theorem C3_usable_rows :
    (∀ rows : List RawRow, ∀ rb ∈ loadFrameRows rows,
      rb.1.protein_g.isSome ∧ rb.1.carbs_g.isSome ∧ rb.1.fat_g.isSome ∧
        rb.1.calories_kcal.isSome) ∧
    (∀ rows : List RawRow, ∀ r : RawRow,
      (r.protein_g = none ∨ r.carbs_g = none ∨ r.fat_g = none) →
      synthesizeRow r ∉ loadFrameRows rows) := by
  constructor
  · intro rows rb hmem
    have h := (List.mem_filter.mp hmem).2
    simp only [usable, Bool.and_eq_true] at h
    exact ⟨h.1.1.1, h.1.1.2, h.1.2, h.2⟩
  · intro rows r hmiss hmem
    have h := (List.mem_filter.mp hmem).2
    simp only [usable, Bool.and_eq_true, Option.isSome_iff_exists] at h
    rcases hmiss with hm | hm | hm
    · rcases h.1.1.1 with ⟨v, hv⟩
      rw [synthesizeRow_protein, hm] at hv
      exact Option.noConfusion hv
    · rcases h.1.1.2 with ⟨v, hv⟩
      rw [synthesizeRow_carbs, hm] at hv
      exact Option.noConfusion hv
    · rcases h.1.2 with ⟨v, hv⟩
      rw [synthesizeRow_fat, hm] at hv
      exact Option.noConfusion hv

/-- Witness for C3: the complete sample row survives the pipeline with all
four cells present, and the row with a missing protein cell (despite having
calories) is excluded. -/
theorem C3_usable_rows_witness :
    (sampleGoodRow.protein_g.isSome ∧ sampleGoodRow.carbs_g.isSome ∧
      sampleGoodRow.fat_g.isSome ∧ sampleGoodRow.calories_kcal.isSome) ∧
    synthesizeRow sampleBadRow ∉ loadFrameRows [sampleBadRow] := by
  constructor
  · exact C3_usable_rows.1 [sampleGoodRow] (sampleGoodRow, false) (by decide)
  · exact C3_usable_rows.2 [sampleBadRow] sampleBadRow (Or.inl rfl)

/-- Claim C4: the feature schema written to metadata during training
(`featureCols`) is exactly the order in which prediction assembles its
feature vector: for any profile and any training row whose macro and item
cells match the prediction inputs, the two feature vectors agree
position-by-position. -/
theorem C4_schema_roundtrip :
    featureCols = ["protein_g", "carbs_g", "fat_g", "has_favorite_food",
      "has_favorite_snack", "has_grocery_item", "profile_protein_ratio",
      "profile_carbs_ratio", "profile_fat_ratio", "personalization_score"] ∧
    (∀ (profile : Option Profile) (r : RawRow) (p c f : ℚ) (items : String),
      r.protein_g = some p → r.carbs_g = some c → r.fat_g = some f →
      r.items = some items →
      trainFeatures profile r = predictFeatures featureCols profile p c f items) := by
  constructor
  · rfl
  · intro profile r p c f items hp hc hf hi
    have hlen : (3 : ℕ) < featureCols.length := by decide
    rcases profile with _ | prof
    · simp [trainFeatures, predictFeatures, padZeros, featureCols, hp, hc, hf]
    · rcases hpref : prof.preferences with _ | prefs
      · simp [trainFeatures, predictFeatures, padZeros, featureCols, hp, hc,
          hf, hpref]
      · simp [trainFeatures, predictFeatures, padZeros, hasMatchOpt, hlen,
          hp, hc, hf, hi, hpref, featureCols]

/-- Witness for C4 at a concrete row and the no-profile case: both sides
evaluate to the same ten-entry vector. -/
theorem C4_schema_roundtrip_witness :
    trainFeatures none sampleGoodRow =
      predictFeatures featureCols none 30 40 10 "chicken rice" :=
  C4_schema_roundtrip.2 none sampleGoodRow 30 40 10 "chicken rice"
    rfl rfl rfl rfl

/-- Counterexample to claim C5 as stated: with a one-column schema and no
profile (both inside the claim's "profile features unavailable" scope), the
vector handed to the model keeps its 3 macro entries — the `while` loop of
`predict.py` lines 67-68 only appends, never truncates — so its length is 3,
not the schema length 1. -/
theorem C5_zero_padding_counterexample :
    predictFeatures ["protein_g"] none 30 60 10 "" = [30, 60, 10] ∧
    (predictFeatures ["protein_g"] none 30 60 10 "").length ≠
      (["protein_g"] : List String).length := by
  have h1 : predictFeatures ["protein_g"] none 30 60 10 "" =
      [30, 60, 10] := rfl
  refine ⟨h1, ?_⟩
  rw [h1]
  decide

/-- Claim C5, amended: when profile features are unavailable (no profile, a
profile without truthy preferences, or a schema of at most 3 columns), the
feature vector is exactly `[protein, carbs, fat]` followed by
`schema.length - 3` zeros; hence its length is `max 3 schema.length`, every
entry after the first three is zero, and whenever the schema has at least 3
columns — true of every schema this program records, including the 3-column
fallback — the vector handed to the model has exactly schema-length
entries.  For a schema with fewer than 3 columns the vector keeps its 3
macro entries and is longer than the schema. -/
theorem C5_zero_padding (schema : List String) (profile : Option Profile)
    (p c f : ℚ) (items : String)
    (hua : profile = none ∨
      (∃ prof, profile = some prof ∧ prof.preferences = none) ∨
      ¬ 3 < schema.length) :
    predictFeatures schema profile p c f items =
      [p, c, f] ++ List.replicate (schema.length - 3) 0 ∧
    (predictFeatures schema profile p c f items).length =
      max 3 schema.length ∧
    (3 ≤ schema.length →
      (predictFeatures schema profile p c f items).length = schema.length) ∧
    (∀ x ∈ (predictFeatures schema profile p c f items).drop 3, x = 0) := by
  have hbase : predictFeatures schema profile p c f items =
      padZeros [p, c, f] schema.length := by
    rcases hua with h | ⟨prof, hprof, hpref⟩ | h
    · subst h; rfl
    · subst hprof; simp [predictFeatures, hpref]
    · rcases profile with _ | prof
      · rfl
      · rcases hpref : prof.preferences with _ | prefs
        · simp [predictFeatures, hpref]
        · simp [predictFeatures, hpref, h]
  have hval : predictFeatures schema profile p c f items =
      [p, c, f] ++ List.replicate (schema.length - 3) 0 := hbase
  have hlen : (predictFeatures schema profile p c f items).length =
      max 3 schema.length := by
    rw [hval]
    simp
    omega
  refine ⟨hval, hlen, ?_, ?_⟩
  · intro h3
    rw [hlen]
    omega
  · intro x hx
    rw [hval] at hx
    have : List.drop 3 ([p, c, f] ++ List.replicate (schema.length - 3) 0) =
        List.replicate (schema.length - 3) (0 : ℚ) := rfl
    rw [this] at hx
    exact List.eq_of_mem_replicate hx

/-- Witness for the amended C5: with the ten-column recorded schema and no
profile, the vector is the three macros followed by seven zeros, of length
exactly 10. -/
theorem C5_zero_padding_witness :
    predictFeatures featureCols none 30 60 10 "" =
      [30, 60, 10] ++ List.replicate 7 (0 : ℚ) ∧
    (predictFeatures featureCols none 30 60 10 "").length =
      featureCols.length := by
  have h := C5_zero_padding featureCols none 30 60 10 "" (Or.inl rfl)
  exact ⟨h.1, h.2.2.1 (by decide)⟩

/-- Claim C6: the prediction path terminates early with a message exactly
when the model file is missing or under 1024 bytes (no model is applied in
that case, by construction of `predictMain`), and the training path
terminates early exactly when there are zero usable rows (no strategy is
chosen, hence no model fitted). -/
theorem C6_early_termination :
    (∀ (modelExists : Bool) (modelSize : ℕ) (mr : FileRead Metadata)
        (pr : FileRead Profile) (model : List ℚ → ℚ) (p c f : ℚ)
        (items : String),
      (∃ e, predictMain modelExists modelSize mr pr model p c f items =
        .error e) ↔ (modelExists = false ∨ modelSize < 1024)) ∧
    (∀ rows : List RawRow,
      (∃ e, trainMain rows = .error e) ↔ (loadFrameRows rows).length = 0) := by
  constructor
  · intro modelExists modelSize mr pr model p c f items
    cases modelExists <;> by_cases h : modelSize < 1024 <;>
      simp [predictMain, ensure_model, h]
  · intro rows
    by_cases h : (loadFrameRows rows).length = 0 <;> simp [trainMain, h]

/-- Claim C7: any failing profile read (missing file, unreadable file,
invalid JSON) yields `none` from `load_profile`, and both the training
feature builder and the prediction feature builder then proceed with the
all-zero default profile features. -/
theorem C7_profile_load_fallback (fr : FileRead Profile)
    (hfail : fr = .missing ∨ fr = .unreadable ∨ fr = .invalidJSON) :
    load_profile fr = none ∧
    (∀ r : RawRow, trainFeatures (load_profile fr) r =
      [r.protein_g.getD 0, r.carbs_g.getD 0, r.fat_g.getD 0,
       0, 0, 0, 0, 0, 0, 0]) ∧
    (∀ (schema : List String) (p c f : ℚ) (items : String),
      predictFeatures schema (load_profile fr) p c f items =
        padZeros [p, c, f] schema.length) := by
  have h0 : load_profile fr = none := by
    rcases hfail with h | h | h <;> simp [h, load_profile]
  refine ⟨h0, ?_, ?_⟩
  · intro r
    rw [h0]
    rfl
  · intro schema p c f items
    rw [h0]
    rfl

/-- Witness for C7 at a missing profile file: `load_profile` returns `none`
and the training features of the sample row are the macros followed by
zeros. -/
theorem C7_profile_load_fallback_witness :
    load_profile (FileRead.missing : FileRead Profile) = none ∧
    trainFeatures (load_profile (FileRead.missing : FileRead Profile))
      sampleGoodRow = [30, 40, 10, 0, 0, 0, 0, 0, 0, 0] := by
  constructor
  · exact (C7_profile_load_fallback .missing (Or.inl rfl)).1
  · have h := (C7_profile_load_fallback .missing (Or.inl rfl)).2.1
      sampleGoodRow
    rw [h]
    rfl

/-- Claim C8: when the metadata file is missing or cannot be parsed,
prediction falls back to the default three-column schema and still returns
the model's output on the three macro inputs alone, for any profile state. -/
theorem C8_metadata_fallback (mr : FileRead Metadata)
    (hfail : mr = .missing ∨ mr = .unreadable ∨ mr = .invalidJSON) :
    getSchema mr = defaultSchema ∧
    (∀ (pr : FileRead Profile) (model : List ℚ → ℚ) (p c f : ℚ)
        (items : String),
      predict_with_profile mr pr model p c f items = model [p, c, f]) := by
  have h0 : getSchema mr = defaultSchema := by
    rcases hfail with h | h | h <;> simp [h, getSchema]
  refine ⟨h0, ?_⟩
  intro pr model p c f items
  unfold predict_with_profile
  rw [h0]
  rcases load_profile pr with _ | prof
  · rfl
  · rcases hpref : prof.preferences with _ | prefs
    · simp [predictFeatures, hpref, defaultSchema, padZeros]
    · simp [predictFeatures, hpref, defaultSchema, padZeros]

/-- Witness for C8: with unparsable metadata, the schema is the default and
a sum-model prediction on macros 30/60/10 is their sum. -/
theorem C8_metadata_fallback_witness :
    getSchema (FileRead.invalidJSON : FileRead Metadata) = defaultSchema ∧
    predict_with_profile FileRead.invalidJSON FileRead.missing List.sum
      30 60 10 "chicken rice" = 100 := by
  constructor
  · exact (C8_metadata_fallback .invalidJSON (Or.inr (Or.inr rfl))).1
  · have h := (C8_metadata_fallback .invalidJSON (Or.inr (Or.inr rfl))).2
      FileRead.missing List.sum 30 60 10 "chicken rice"
    rw [h]
    norm_num

/-! Helper lemmas about the accuracy-trend update. -/

lemma updateAccuracyTrend_length (trend : List ℚ) (v : ℚ) :
    (updateAccuracyTrend trend v).length = min (trend.length + 1) 10 := by
  simp only [updateAccuracyTrend]
  split
  · simp_all
    omega
  · simp_all

lemma updateAccuracyTrend_suffix (trend : List ℚ) (v : ℚ) :
    (updateAccuracyTrend trend v).IsSuffix (trend ++ [v]) := by
  simp only [updateAccuracyTrend]
  split
  · exact List.drop_suffix _ _
  · exact List.suffix_refl _

/-- Claim C9: for every profile and sample count the personalization score
written back by `update_profile_metrics` is
`min(1, 0.1 * total_preferences + 0.01 * n)`, which lies in `[0, 1]`. -/
theorem C9_personalization_score_bounds (p : Profile) (r2 : Option ℚ)
    (n : ℕ) (conf : ℚ) :
    ∃ q, update_profile_metrics (some p) r2 n conf = some q ∧
      q.learning_metrics.personalization_score =
        some (personalizationScore (profileTotalPrefs p) n) ∧
      0 ≤ personalizationScore (profileTotalPrefs p) n ∧
      personalizationScore (profileTotalPrefs p) n ≤ 1 := by
  have hge : 0 ≤ personalizationScore (profileTotalPrefs p) n := by
    unfold personalizationScore
    positivity
  have hle : personalizationScore (profileTotalPrefs p) n ≤ 1 :=
    min_le_left _ _
  rcases r2 with _ | v
  · exact ⟨_, rfl, rfl, hge, hle⟩
  · exact ⟨_, rfl, rfl, hge, hle⟩

/-- Claim C10: after any `update_profile_metrics` call that records an
R-squared metric, the stored accuracy trend has at most 10 entries and is
the suffix of most recent scores of the previous trend extended by the new
score. -/
theorem C10_accuracy_trend_bounded (p : Profile) (v : ℚ) (n : ℕ)
    (conf : ℚ) :
    ∃ q, update_profile_metrics (some p) (some v) n conf = some q ∧
      ∃ t, q.learning_metrics.accuracy_trend = some t ∧
        t.length ≤ 10 ∧
        t.length =
          min ((p.learning_metrics.accuracy_trend.getD []).length + 1) 10 ∧
        t.IsSuffix ((p.learning_metrics.accuracy_trend.getD []) ++ [v]) := by
  refine ⟨_, rfl, updateAccuracyTrend
    (p.learning_metrics.accuracy_trend.getD []) v, rfl, ?_, ?_, ?_⟩
  · rw [updateAccuracyTrend_length]
    omega
  · exact updateAccuracyTrend_length _ _
  · exact updateAccuracyTrend_suffix _ _

end FitnessAI
